import Mathlib

/-!
Shallow embedding of the mocktail repository (Rust), restricted to the parts
the claims touch: the `Method`/`Request` model of `src/mocktail/src/request.rs`
and the `MockServer` lifecycle controller of `src/mocktail/src/server.rs`.

Conventions of the embedding:
* Rust `Result<T, E>` becomes `Except E T`; Rust `Option<T>` becomes `Option T`.
* A Rust panic (`unwrap()` on a failing value, `unimplemented!()`) is modelled
  by an outer `Option`: `none` means the call panics instead of returning.
* External collaborators (the `url` crate's parser, the OS socket layer, the
  process RNG) are modelled at the granularity the code uses them: the socket
  layer and RNG become explicit oracles threaded through `start`, and URL
  parsing becomes a small executable validator over the strings actually built
  by the code.
* Machine integers (`u8`, `u16`, `usize`) are modelled as `Nat`; none of the
  code paths under study perform overflowing arithmetic.
-/

namespace Mocktail

/-! ## Method (request.rs lines 80-155) -/

/-- The closed HTTP method enumeration of `request.rs`. -/
inductive Method where
  | GET
  | HEAD
  | POST
  | PUT
  | DELETE
  | CONNECT
  | OPTIONS
  | TRACE
  | PATCH
deriving DecidableEq, Repr

/-- `Display for Method` delegates to the derived `Debug`, which prints the
variant name verbatim (request.rs lines 96-100). -/
def Method.toStr : Method → String
  | .GET => "GET"
  | .HEAD => "HEAD"
  | .POST => "POST"
  | .PUT => "PUT"
  | .DELETE => "DELETE"
  | .CONNECT => "CONNECT"
  | .OPTIONS => "OPTIONS"
  | .TRACE => "TRACE"
  | .PATCH => "PATCH"

/-- Model of Rust `str::to_uppercase` at ASCII granularity (every string the
code compares against is ASCII; Lean's `Char.toUpper` is exactly the ASCII
upcasing `a..z → A..Z`, identity elsewhere). -/
def toUppercase (s : String) : String :=
  ⟨s.data.map Char.toUpper⟩

/-- `impl FromStr for Method` (request.rs lines 102-119): uppercase the input,
then match it against the nine method names; anything else is `Err`. -/
def Method.fromStr (value : String) : Except String Method :=
  match toUppercase value with
  | "GET" => .ok .GET
  | "HEAD" => .ok .HEAD
  | "POST" => .ok .POST
  | "PUT" => .ok .PUT
  | "DELETE" => .ok .DELETE
  | "CONNECT" => .ok .CONNECT
  | "OPTIONS" => .ok .OPTIONS
  | "TRACE" => .ok .TRACE
  | "PATCH" => .ok .PATCH
  | _ => .error ("Invalid HTTP method " ++ value)

/-- `impl TryFrom<&str> for Method` (request.rs lines 121-138): an exact,
case-sensitive match against the nine upper-case names. -/
def Method.tryFrom (value : String) : Except String Method :=
  match value with
  | "POST" => .ok .POST
  | "GET" => .ok .GET
  | "HEAD" => .ok .HEAD
  | "PUT" => .ok .PUT
  | "DELETE" => .ok .DELETE
  | "CONNECT" => .ok .CONNECT
  | "OPTIONS" => .ok .OPTIONS
  | "TRACE" => .ok .TRACE
  | "PATCH" => .ok .PATCH
  | _ => .error ("Invalid HTTP method " ++ value)

/-- `impl From<http::Method> for Method` (request.rs lines 140-155). An
`http::Method` is modelled by its token string (the `http` crate admits
arbitrary extension methods). The source ends in `_ => unimplemented!()`,
a panic, modelled here as `none`. -/
def Method.fromHttp (value : String) : Option Method :=
  match value with
  | "GET" => some .GET
  | "HEAD" => some .HEAD
  | "POST" => some .POST
  | "PUT" => some .PUT
  | "DELETE" => some .DELETE
  | "CONNECT" => some .CONNECT
  | "OPTIONS" => some .OPTIONS
  | "TRACE" => some .TRACE
  | "PATCH" => some .PATCH
  | _ => none

example : Method.fromStr "gEt" = .ok .GET := rfl
example : Method.fromStr "get " = .error "Invalid HTTP method get " := rfl
example : Method.tryFrom "get" = .error "Invalid HTTP method get" := rfl
example : Method.fromHttp "FOO" = none := rfl

/-! ## URLs and request parts (request.rs lines 6-78) -/

/-- A parsed `url::Url`, carried as the string it was parsed from. The `url`
crate is an external collaborator; only parse success or failure matters to
the code under study. -/
structure Url where
  repr : String
deriving DecidableEq, Repr

/-- Model of `url::Url::parse` at the granularity the code uses it: the code
only ever parses strings of shape `http://<rest>` (either produced by the
`format!` calls in `request.rs`/`server.rs` or an authority-bearing
`http::Uri` rendered to text). An absolute `http` URL needs the scheme
marker and a nonempty, space-free host; anything else fails to parse. -/
def hostChar (c : Char) : Bool :=
  !(c == '/' || c == ':' || c == '?' || c == '#')

def Url.parse (s : String) : Option Url :=
  match s.data with
  | 'h' :: 't' :: 't' :: 'p' :: ':' :: '/' :: '/' :: rest =>
    let host := rest.takeWhile hostChar
    if host.isEmpty || host.any (fun c => c == ' ') then none else some ⟨s⟩
  | _ => none

/-- An `http::uri::Uri` from parsed protocol parts: an optional authority and
the textual rendering of the remainder (origin-form target, or the full text
when a scheme is present). `toText` models the `Display` used by
`format!("http://localhost{}", parts.uri)` and `parts.uri.to_string()`. -/
structure HttpUri where
  authority : Option String
  scheme : Option String
  pathAndQuery : String
deriving DecidableEq, Repr

def HttpUri.toText (u : HttpUri) : String :=
  (match u.scheme with
   | some s => s ++ "://"
   | none => "") ++
  (match u.authority with
   | some a => a
   | none => "") ++ u.pathAndQuery

/-- Header multimap and body are opaque value types to the lifecycle and
request-model claims; entries are kept verbatim. -/
structure Headers where
  entries : List (String × String)
deriving DecidableEq, Repr

def Headers.default : Headers := ⟨[]⟩

/-- Opaque body bytes. -/
structure Body where
  bytes : List Nat
deriving DecidableEq, Repr

def Body.default : Body := ⟨[]⟩

/-- `http::request::Parts`: the pieces of a parsed protocol message that
`Request::from_parts` consumes. The method is its token string (the `http`
crate admits extension methods beyond the nine standard ones). -/
structure HttpParts where
  method : String
  uri : HttpUri
  headers : Headers
deriving DecidableEq, Repr

/-- `Request` (request.rs lines 7-13). -/
structure Request where
  method : Method
  url : Url
  headers : Headers
  body : Body
deriving DecidableEq, Repr

/-- The string `Request::from_parts` hands to `Url::parse` (request.rs lines
26-31): the uri rendered directly when it carries an authority, otherwise
resolved against the placeholder authority `http://localhost`. -/
def Request.targetText (parts : HttpParts) : String :=
  if parts.uri.authority.isSome then parts.uri.toText
  else "http://localhost" ++ parts.uri.toText

/-- `Request::from_parts` (request.rs lines 25-39). Both `.parse().unwrap()`
on the target and the `From<http::Method>` conversion can panic in the
source; either panic is modelled by `none`. -/
def Request.from_parts (parts : HttpParts) : Option Request :=
  match Url.parse (Request.targetText parts) with
  | none => none
  | some url =>
    match Method.fromHttp parts.method with
    | none => none
    | some m => some { method := m, url := url, headers := parts.headers, body := Body.default }

example : Url.parse "http://localhost/health" = some ⟨"http://localhost/health"⟩ := rfl
example : Url.parse "127.0.0.1:8443" = none := rfl
example : Request.from_parts ⟨"FOO", ⟨none, none, "/health"⟩, ⟨[]⟩⟩ = none := rfl
example : Request.from_parts ⟨"GET", ⟨none, none, "/health"⟩, ⟨[]⟩⟩ =
    some ⟨.GET, ⟨"http://localhost/health"⟩, ⟨[]⟩, ⟨[]⟩⟩ := rfl

/-! ## Addresses and their textual rendering (std types used by server.rs) -/

/-- The character of a decimal digit (callers only pass `d < 10`; the
fallback keeps the function total over `Nat`). -/
def digitChar : Nat → Char
  | 0 => '0'
  | 1 => '1'
  | 2 => '2'
  | 3 => '3'
  | 4 => '4'
  | 5 => '5'
  | 6 => '6'
  | 7 => '7'
  | 8 => '8'
  | 9 => '9'
  | _ => '0'

/-- Decimal digits of `n`, most significant first; structural fuel recursion
so that concrete evaluation stays kernel-reducible. -/
def natChars : Nat → Nat → List Char
  | 0, _ => []
  | fuel + 1, n =>
    if n < 10 then [digitChar n]
    else natChars fuel (n / 10) ++ [digitChar (n % 10)]

/-- Decimal rendering of a natural number (the std `Display` of the integer
components of an address). -/
def natToStr (n : Nat) : String := ⟨natChars (n + 1) n⟩

/-- An IPv4 address (the configuration in server.rs constructs
`IpAddr::V4`; the claims only involve the V4 form). -/
structure IpV4 where
  a : Nat
  b : Nat
  c : Nat
  d : Nat
deriving DecidableEq, Repr

/-- `Display` of an IPv4 address: dotted decimal. -/
def IpV4.toText (ip : IpV4) : String :=
  natToStr ip.a ++ "." ++ natToStr ip.b ++ "." ++ natToStr ip.c ++ "." ++ natToStr ip.d

structure SocketAddr where
  ip : IpV4
  port : Nat
deriving DecidableEq, Repr

/-- `Display` of a socket address: `ip:port`. -/
def SocketAddr.toText (sa : SocketAddr) : String :=
  sa.ip.toText ++ ":" ++ natToStr sa.port

example : natToStr 10234 = "10234" := rfl
example : SocketAddr.toText ⟨⟨0, 0, 0, 0⟩, 10234⟩ = "0.0.0.0:10234" := rfl

/-! ## MockServerConfig (server.rs lines 285-312) -/

/-- `MockServerConfig` (server.rs lines 285-293); `ready_connect_timeout` is
the per-probe timeout in milliseconds (`Duration::from_millis`). -/
structure MockServerConfig where
  listen_addr : IpV4
  port_range_start : Nat
  port_range_end : Nat
  bind_max_retries : Nat
  ready_connect_max_retries : Nat
  ready_connect_timeout : Nat
deriving DecidableEq, Repr

/-- `impl Default for MockServerConfig` (server.rs lines 301-312). -/
def MockServerConfig.default : MockServerConfig :=
  { listen_addr := ⟨0, 0, 0, 0⟩
    port_range_start := 10000
    port_range_end := 30000
    bind_max_retries := 10
    ready_connect_max_retries := 30
    ready_connect_timeout := 10 }

/-! ## The start() state machine (server.rs lines 94-148) -/

/-- Oracles for the external effects `start` performs, indexed by attempt
number: the RNG draws behind `rng.random_range`, whether the i-th
`TcpListener::bind` succeeds, and whether the i-th readiness probe
(`TcpStream::connect_timeout`) connects. -/
structure StartEnv where
  rand : Nat → Nat
  bindOk : Nat → Bool
  probeOk : Nat → Bool

/-- A successfully bound listener; `local_addr` on a bound listener returns
the address it was bound to. -/
structure TcpListener where
  localAddr : SocketAddr
deriving DecidableEq, Repr

/-- The crate-level `Error` enum lives outside src/; `start` only ever
constructs `Error::ServerError(msg)` with three fixed messages, which is all
the model needs. -/
inductive Err where
  | serverError (msg : String)
deriving DecidableEq, Repr

/-- Outcome of the bind loop. `panic` models `rng.random_range` called on an
empty port range, which panics in Rust. -/
inductive BindOut where
  | panic
  | fail
  | ok (listener : TcpListener)
deriving DecidableEq, Repr

/-- The candidate port drawn by `rng.random_range(start..end)` from the raw
draw `r`: a member of the half-open configured range. -/
def drawPort (cfg : MockServerConfig) (r : Nat) : Nat :=
  cfg.port_range_start + r % (cfg.port_range_end - cfg.port_range_start)

/-- The bind loop of `start` (server.rs lines 99-114), with explicit fuel
(`none` = fuel exhausted, never reached from `bindLoop`) and an attempt
counter instrumenting how many `TcpListener::bind` calls were made.
`counter` mirrors the source's `counter` variable. -/
def bindLoopAux (cfg : MockServerConfig) (env : StartEnv) :
    Nat → Nat → Option (BindOut × Nat)
  | _, 0 => none
  | counter, fuel + 1 =>
    if cfg.port_range_end ≤ cfg.port_range_start then some (.panic, 0)
    else
      if env.bindOk counter then
        some (.ok ⟨⟨cfg.listen_addr, drawPort cfg (env.rand counter)⟩⟩, 1)
      else if counter = cfg.bind_max_retries then some (.fail, 1)
      else
        match bindLoopAux cfg env (counter + 1) fuel with
        | none => none
        | some (out, k) => some (out, k + 1)

/-- The bind loop entered at `counter = 0`; the fuel
`bind_max_retries + 1` covers every reachable iteration. -/
def bindLoop (cfg : MockServerConfig) (env : StartEnv) : Option (BindOut × Nat) :=
  bindLoopAux cfg env 0 (cfg.bind_max_retries + 1)

/-- Outcome of the readiness loop. -/
inductive ReadyOut where
  | fail
  | ok
deriving DecidableEq, Repr

/-- The readiness-probe loop of `start` (server.rs lines 131-141), with
explicit fuel (`none` = fuel exhausted, never reached from `readyLoop`).
`counter` mirrors the source's second `counter` variable. -/
def readyLoopAux (cfg : MockServerConfig) (env : StartEnv) :
    Nat → Nat → Option ReadyOut
  | _, 0 => none
  | counter, fuel + 1 =>
    if env.probeOk counter then some .ok
    else if counter = cfg.ready_connect_max_retries then some .fail
    else readyLoopAux cfg env (counter + 1) fuel

/-- The readiness loop entered at `counter = 0`. -/
def readyLoop (cfg : MockServerConfig) (env : StartEnv) : Option ReadyOut :=
  readyLoopAux cfg env 0 (cfg.ready_connect_max_retries + 1)

/-! ## MockServer (server.rs lines 28-206) -/

inductive ServerKind where
  | Http
  | Grpc
deriving DecidableEq, Repr

/-- `MockServer` (server.rs lines 29-36). The two `OnceLock` cells are
modelled as `Option` fields: empty (`none`) until their one `set`. The mock
registry state is orthogonal to the lifecycle claims and omitted. -/
structure MockServer where
  name : String
  kind : ServerKind
  addr : Option SocketAddr
  base_url : Option Url
  config : MockServerConfig
deriving DecidableEq, Repr

/-- `MockServer::new` (server.rs lines 40-49). -/
def MockServer.new (name : String) : MockServer :=
  { name := name
    kind := .Http
    addr := none
    base_url := none
    config := MockServerConfig.default }

/-- `MockServer::new_grpc` (server.rs lines 64-73). -/
def MockServer.new_grpc (name : String) : MockServer :=
  { MockServer.new name with kind := .Grpc }

/-- `MockServer::with_config` (server.rs lines 89-92). -/
def MockServer.with_config (s : MockServer) (cfg : MockServerConfig) : MockServer :=
  { s with config := cfg }

/-- `MockServer::addr` (server.rs lines 154-156): `self.addr.get()`; the
`OnceLock` cell is the `addr` field, so the accessor reads it. -/
def MockServer.addrOpt (s : MockServer) : Option SocketAddr := s.addr

/-- `MockServer::hostname` (server.rs lines 158-160). -/
def MockServer.hostname (s : MockServer) : Option String :=
  s.addr.map fun a => a.ip.toText

/-- `MockServer::port` (server.rs lines 162-164). -/
def MockServer.port (s : MockServer) : Option Nat :=
  s.addr.map fun a => a.port

/-- `MockServer::base_url` (server.rs lines 166-168). -/
def MockServer.baseUrlOpt (s : MockServer) : Option Url := s.base_url

/-- `MockServer::is_running` (server.rs lines 178-180): `self.addr().is_some()`. -/
def MockServer.is_running (s : MockServer) : Bool := s.addr.isSome

/-- `MockServer::start` (server.rs lines 94-148). Returns `none` when the
source would panic (`random_range` on an empty port range, or
`Url::parse(..).unwrap()` failing); otherwise `some (result, updated
server)`. The `listener.local_addr()?` of a bound listener is its bound
address; the two `OnceLock::set(..).unwrap()` calls cannot fail here because
the guard at entry established that the cells are empty. Spawning the accept
loop is an effect outside the controller state and is not modelled. -/
def MockServer.start (s : MockServer) (env : StartEnv) :
    Option (Except Err Unit × MockServer) :=
  if (s.addrOpt).isSome then some (.error (.serverError "already running"), s)
  else
    match bindLoop s.config env with
    | none => none
    | some (.panic, _) => none
    | some (.fail, _) => some (.error (.serverError "server failed to bind to port"), s)
    | some (.ok listener, _) =>
      let addr := listener.localAddr
      match Url.parse ("http://" ++ addr.toText) with
      | none => none
      | some base_url =>
        match readyLoop s.config env with
        | none => none
        | some .fail => some (.error (.serverError "server failed to become ready"), s)
        | some .ok =>
          some (.ok (), { s with addr := some addr, base_url := some base_url })

/-- Repeated invocations of `start` on one server, each call with its own
environment; a call that panics aborts the run with the state unchanged. -/
def runStarts (s : MockServer) : List StartEnv → MockServer
  | [] => s
  | e :: es =>
    match s.start e with
    | some (_, s2) => runStarts s2 es
    | none => s

/-- An all-succeeding environment: first bind succeeds, first probe
succeeds, RNG always draws 0. -/
def envFirstTry : StartEnv :=
  { rand := fun _ => 0, bindOk := fun _ => true, probeOk := fun _ => true }

/-- An environment in which every bind fails and every probe succeeds. -/
def envBindAllFail : StartEnv :=
  { rand := fun _ => 0, bindOk := fun _ => false, probeOk := fun _ => true }

/-- An environment in which the first bind succeeds and every probe fails. -/
def envProbeAllFail : StartEnv :=
  { rand := fun _ => 0, bindOk := fun _ => true, probeOk := fun _ => false }

example : (MockServer.new "t").start envFirstTry =
    some (.ok (), { MockServer.new "t" with
      addr := some ⟨⟨0, 0, 0, 0⟩, 10000⟩
      base_url := some ⟨"http://0.0.0.0:10000"⟩ }) := rfl

example : (MockServer.new "t").start envBindAllFail =
    some (.error (.serverError "server failed to bind to port"), MockServer.new "t") := rfl

example : (MockServer.new "t").start envProbeAllFail =
    some (.error (.serverError "server failed to become ready"), MockServer.new "t") := rfl

example : (bindLoop MockServerConfig.default envBindAllFail).map Prod.snd = some 11 := rfl

/-! ## Theorems -/

lemma fromStr_eq_ok_iff (s : String) (m : Method) :
    Method.fromStr s = .ok m ↔ toUppercase s = Method.toStr m := by
  unfold Method.fromStr
  split <;> rename_i h <;>
    first
      | (rw [h]; cases m <;> simp [Method.toStr])
      | (cases m <;> simp_all [Method.toStr])

lemma tryFrom_eq_ok_iff (s : String) (m : Method) :
    Method.tryFrom s = .ok m ↔ s = Method.toStr m := by
  unfold Method.tryFrom
  split <;> cases m <;> simp_all [Method.toStr]

/-- C10: Display of a `Method` is its upper-case variant name, and `FromStr`
parses that rendering back to the same variant. -/
theorem method_display_fromStr_roundtrip (m : Method) :
    toUppercase (Method.toStr m) = Method.toStr m ∧
    Method.fromStr (Method.toStr m) = .ok m := by
  cases m <;> exact ⟨rfl, rfl⟩

/-- C4 counterexample: "get" is the method token GET written in lower case,
and `FromStr` accepts it, but `TryFrom<&str>` — one of the cited
string-to-Method constructions — rejects it: `try_from` matches the nine
tokens case-sensitively, so case-insensitivity does not hold for every
string-to-Method construction. -/
theorem tryFrom_rejects_lowercase_token :
    Method.fromStr "get" = .ok .GET ∧
    Method.tryFrom "get" = .error "Invalid HTTP method get" :=
  ⟨rfl, rfl⟩

/-- C4 (amended): `FromStr` parses case-insensitively — it succeeds exactly
on the strings whose (ASCII) uppercasing is one of the nine method names,
returning the matching variant, and fails on every other token — while
`TryFrom<&str>` succeeds exactly on the nine upper-case names themselves. -/
theorem method_parsing_case_sensitivity (s : String) :
    (∀ m : Method,
      (Method.fromStr s = .ok m ↔ toUppercase s = Method.toStr m) ∧
      (Method.tryFrom s = .ok m ↔ s = Method.toStr m)) ∧
    ((∀ m : Method, toUppercase s ≠ Method.toStr m) →
      Method.fromStr s = .error ("Invalid HTTP method " ++ s)) ∧
    ((∀ m : Method, s ≠ Method.toStr m) →
      Method.tryFrom s = .error ("Invalid HTTP method " ++ s)) := by
  refine ⟨fun m => ⟨fromStr_eq_ok_iff s m, tryFrom_eq_ok_iff s m⟩, ?_, ?_⟩
  · intro h
    unfold Method.fromStr
    split <;> rename_i heq
    case _ => exact absurd heq (h .GET)
    case _ => exact absurd heq (h .HEAD)
    case _ => exact absurd heq (h .POST)
    case _ => exact absurd heq (h .PUT)
    case _ => exact absurd heq (h .DELETE)
    case _ => exact absurd heq (h .CONNECT)
    case _ => exact absurd heq (h .OPTIONS)
    case _ => exact absurd heq (h .TRACE)
    case _ => exact absurd heq (h .PATCH)
    case _ => rfl
  · intro h
    unfold Method.tryFrom
    split
    case _ => exact absurd rfl (h .POST)
    case _ => exact absurd rfl (h .GET)
    case _ => exact absurd rfl (h .HEAD)
    case _ => exact absurd rfl (h .PUT)
    case _ => exact absurd rfl (h .DELETE)
    case _ => exact absurd rfl (h .CONNECT)
    case _ => exact absurd rfl (h .OPTIONS)
    case _ => exact absurd rfl (h .TRACE)
    case _ => exact absurd rfl (h .PATCH)
    case _ => rfl

/-- C4 (amended) witness at `s = "xyz"`: no method name matches, so both
conversions fail with the validation error. -/
theorem method_parsing_case_sensitivity_witness :
    (∀ m : Method, toUppercase "xyz" ≠ Method.toStr m) ∧
    Method.fromStr "xyz" = .error "Invalid HTTP method xyz" :=
  ⟨by intro m; cases m <;> decide,
    ((method_parsing_case_sensitivity "xyz").2.1 (by intro m; cases m <;> decide))⟩

/-- C5 counterexample: `"FOO"` is a legal `http::Method` extension token, yet
building a `Request` from parts carrying it does not return a value or an
error — the `From<http::Method>` conversion hits `unimplemented!()`, a panic
(modelled as `none`). -/
theorem from_parts_extension_method_panics :
    Request.from_parts ⟨"FOO", ⟨none, none, "/health"⟩, ⟨[]⟩⟩ = none ∧
    Method.fromHttp "FOO" = none :=
  ⟨rfl, rfl⟩

/-- C5 (amended): the fallible conversions `FromStr`/`TryFrom` return `Ok`
or the validation error for every input and never panic, but
`Request::from_parts` and the `From<http::Method>` conversion it calls can
panic: `from_parts` returns a `Request` exactly when the method token is one
of the nine standard methods and the resolved target string parses as a URL;
otherwise it panics (`unimplemented!()` for the method, `.unwrap()` for the
target). -/
theorem request_construction_outcomes (parts : HttpParts) (s : String) :
    ((Request.from_parts parts).isSome ↔
      ((Url.parse (Request.targetText parts)).isSome ∧
        (Method.fromHttp parts.method).isSome)) ∧
    ((∃ m, Method.fromStr s = .ok m) ∨
      Method.fromStr s = .error ("Invalid HTTP method " ++ s)) ∧
    ((∃ m, Method.tryFrom s = .ok m) ∨
      Method.tryFrom s = .error ("Invalid HTTP method " ++ s)) := by
  refine ⟨?_, ?_, ?_⟩
  · unfold Request.from_parts
    cases Url.parse (Request.targetText parts) <;>
      cases hm : Method.fromHttp parts.method <;> simp [hm]
  · unfold Method.fromStr
    split
    case _ => exact Or.inl ⟨.GET, rfl⟩
    case _ => exact Or.inl ⟨.HEAD, rfl⟩
    case _ => exact Or.inl ⟨.POST, rfl⟩
    case _ => exact Or.inl ⟨.PUT, rfl⟩
    case _ => exact Or.inl ⟨.DELETE, rfl⟩
    case _ => exact Or.inl ⟨.CONNECT, rfl⟩
    case _ => exact Or.inl ⟨.OPTIONS, rfl⟩
    case _ => exact Or.inl ⟨.TRACE, rfl⟩
    case _ => exact Or.inl ⟨.PATCH, rfl⟩
    case _ => exact Or.inr rfl
  · unfold Method.tryFrom
    split
    case _ => exact Or.inl ⟨.POST, rfl⟩
    case _ => exact Or.inl ⟨.GET, rfl⟩
    case _ => exact Or.inl ⟨.HEAD, rfl⟩
    case _ => exact Or.inl ⟨.PUT, rfl⟩
    case _ => exact Or.inl ⟨.DELETE, rfl⟩
    case _ => exact Or.inl ⟨.CONNECT, rfl⟩
    case _ => exact Or.inl ⟨.OPTIONS, rfl⟩
    case _ => exact Or.inl ⟨.TRACE, rfl⟩
    case _ => exact Or.inl ⟨.PATCH, rfl⟩
    case _ => exact Or.inr rfl

/-- C6: a `Request` built from parts resolves a relative target against the
placeholder authority `http://localhost` — the URL is the parse of
`"http://localhost"` concatenated with the rendered target — and uses an
authority-bearing target directly as the absolute URL. -/
theorem from_parts_target_resolution (parts : HttpParts) (req : Request) :
    Request.from_parts parts = some req →
      (parts.uri.authority = none →
        Url.parse ("http://localhost" ++ parts.uri.toText) = some req.url) ∧
      (parts.uri.authority.isSome →
        Url.parse parts.uri.toText = some req.url) := by
  unfold Request.from_parts
  intro h
  constructor
  · intro hnone
    have ht : Request.targetText parts = "http://localhost" ++ parts.uri.toText := by
      unfold Request.targetText
      rw [hnone]
      rfl
    rw [ht] at h
    revert h
    cases hp : Url.parse ("http://localhost" ++ parts.uri.toText) <;>
      cases Method.fromHttp parts.method <;> intro h <;> simp_all
    cases h
    rfl
  · intro hsome
    have ht : Request.targetText parts = parts.uri.toText := by
      unfold Request.targetText
      rw [if_pos hsome]
    rw [ht] at h
    revert h
    cases hp : Url.parse parts.uri.toText <;>
      cases Method.fromHttp parts.method <;> intro h <;> simp_all
    cases h
    rfl

/-- C6 witness at a relative target `/health` with method GET: construction
succeeds and the URL is the parse of `"http://localhost" ++ "/health"`. -/
theorem from_parts_target_resolution_witness :
    Request.from_parts ⟨"GET", ⟨none, none, "/health"⟩, ⟨[]⟩⟩ =
      some ⟨.GET, ⟨"http://localhost/health"⟩, ⟨[]⟩, ⟨[]⟩⟩ ∧
    (HttpUri.authority ⟨none, none, "/health"⟩ = none →
      Url.parse ("http://localhost" ++ HttpUri.toText ⟨none, none, "/health"⟩) =
        some (Request.url ⟨.GET, ⟨"http://localhost/health"⟩, ⟨[]⟩, ⟨[]⟩⟩)) :=
  ⟨rfl, (from_parts_target_resolution ⟨"GET", ⟨none, none, "/health"⟩, ⟨[]⟩⟩
      ⟨.GET, ⟨"http://localhost/health"⟩, ⟨[]⟩, ⟨[]⟩⟩ rfl).1⟩

/-- C9: the default `MockServerConfig` carries exactly the enumerated
defaults — listen on all interfaces (0.0.0.0), candidate ports drawn from
[10000, 30000), 10 for the bind-retry budget, 30 for the readiness-probe
budget, and a 10 ms per-probe timeout. -/
theorem default_config_values :
    MockServerConfig.default.listen_addr = ⟨0, 0, 0, 0⟩ ∧
    MockServerConfig.default.port_range_start = 10000 ∧
    MockServerConfig.default.port_range_end = 30000 ∧
    MockServerConfig.default.bind_max_retries = 10 ∧
    MockServerConfig.default.ready_connect_max_retries = 30 ∧
    MockServerConfig.default.ready_connect_timeout = 10 :=
  ⟨rfl, rfl, rfl, rfl, rfl, rfl⟩

/-! ### Helper lemmas: decimal renderings parse as URL hosts -/

lemma digitChar_isDigit (d : Nat) : (digitChar d).isDigit = true := by
  unfold digitChar
  split <;> decide

lemma natChars_isDigit : ∀ fuel n, ∀ c ∈ natChars fuel n, c.isDigit = true := by
  intro fuel
  induction fuel with
  | zero => intro n c hc; simp [natChars] at hc
  | succ fuel ih =>
    intro n c hc
    unfold natChars at hc
    by_cases h : n < 10
    · rw [if_pos h] at hc
      simp at hc
      rw [hc]
      exact digitChar_isDigit n
    · rw [if_neg h] at hc
      rcases List.mem_append.mp hc with h1 | h2
      · exact ih _ c h1
      · simp at h2
        rw [h2]
        exact digitChar_isDigit _

lemma natChars_ne_nil : ∀ fuel n, fuel ≠ 0 → natChars fuel n ≠ [] := by
  intro fuel n h
  cases fuel with
  | zero => exact absurd rfl h
  | succ fuel =>
    unfold natChars
    by_cases h10 : n < 10
    · rw [if_pos h10]; simp
    · rw [if_neg h10]; simp

lemma natToStr_isDigit (n : Nat) : ∀ c ∈ (natToStr n).data, c.isDigit = true :=
  natChars_isDigit (n + 1) n

lemma natToStr_ne_nil (n : Nat) : (natToStr n).data ≠ [] :=
  natChars_ne_nil (n + 1) n (Nat.succ_ne_zero n)

lemma ipText_chars (ip : IpV4) :
    ∀ c ∈ (IpV4.toText ip).data, c.isDigit = true ∨ c = '.' := by
  intro c hc
  unfold IpV4.toText at hc
  simp only [String.data_append] at hc
  simp only [List.mem_append] at hc
  rcases hc with ((((((h | h) | h) | h) | h) | h) | h)
  · exact Or.inl (natToStr_isDigit ip.a c h)
  · simp at h; exact Or.inr h
  · exact Or.inl (natToStr_isDigit ip.b c h)
  · simp at h; exact Or.inr h
  · exact Or.inl (natToStr_isDigit ip.c c h)
  · simp at h; exact Or.inr h
  · exact Or.inl (natToStr_isDigit ip.d c h)

lemma ipText_ne_nil (ip : IpV4) : (IpV4.toText ip).data ≠ [] := by
  unfold IpV4.toText
  simp only [String.data_append]
  intro h
  rcases List.append_eq_nil.mp h with ⟨h1, _⟩
  rcases List.append_eq_nil.mp h1 with ⟨h2, _⟩
  rcases List.append_eq_nil.mp h2 with ⟨h3, _⟩
  rcases List.append_eq_nil.mp h3 with ⟨h4, _⟩
  rcases List.append_eq_nil.mp h4 with ⟨h5, _⟩
  rcases List.append_eq_nil.mp h5 with ⟨h6, _⟩
  exact natToStr_ne_nil ip.a h6

lemma hostChar_of_digit_or_dot (c : Char) (h : c.isDigit = true ∨ c = '.') :
    hostChar c = true ∧ (c == ' ') = false := by
  rcases h with h | h
  · constructor
    · unfold hostChar
      have h1 : (c == '/') = false := by
        rw [beq_eq_false_iff_ne]
        intro hc; rw [hc] at h; exact absurd h (by decide)
      have h2 : (c == ':') = false := by
        rw [beq_eq_false_iff_ne]
        intro hc; rw [hc] at h; exact absurd h (by decide)
      have h3 : (c == '?') = false := by
        rw [beq_eq_false_iff_ne]
        intro hc; rw [hc] at h; exact absurd h (by decide)
      have h4 : (c == '#') = false := by
        rw [beq_eq_false_iff_ne]
        intro hc; rw [hc] at h; exact absurd h (by decide)
      rw [h1, h2, h3, h4]
      rfl
    · rw [beq_eq_false_iff_ne]
      intro hc; rw [hc] at h; exact absurd h (by decide)
  · rw [h]
    exact ⟨rfl, rfl⟩

lemma takeWhile_append_stop (p : Char → Bool) (l1 l2 : List Char) (c : Char)
    (h1 : ∀ x ∈ l1, p x = true) (hc : p c = false) :
    (l1 ++ c :: l2).takeWhile p = l1 := by
  induction l1 with
  | nil => simp [List.takeWhile_cons, hc]
  | cons a l ih =>
    have ha : p a = true := h1 a (List.mem_cons_self a l)
    simp only [List.cons_append, List.takeWhile_cons, ha, if_true]
    rw [ih fun x hx => h1 x (List.mem_cons_of_mem a hx)]

/-- Reduction of `Url.parse` on a string whose data starts with the
`http://` marker. -/
lemma Url.parse_of_data (s : String) (rest : List Char)
    (h : s.data = 'h' :: 't' :: 't' :: 'p' :: ':' :: '/' :: '/' :: rest) :
    Url.parse s =
      (if (rest.takeWhile hostChar).isEmpty ||
          (rest.takeWhile hostChar).any (fun c => c == ' ')
       then none else some ⟨s⟩) := by
  unfold Url.parse
  rw [h]
  rfl

/-- The base-URL string `start` builds from a bound socket address always
parses: the host portion is nonempty dotted-decimal. -/
lemma Url.parse_socket (sa : SocketAddr) :
    Url.parse ("http://" ++ sa.toText) = some ⟨"http://" ++ sa.toText⟩ := by
  have hdata : ("http://" ++ sa.toText).data =
      'h' :: 't' :: 't' :: 'p' :: ':' :: '/' :: '/' ::
        ((IpV4.toText sa.ip).data ++ ':' :: (natToStr sa.port).data) := by
    rw [String.data_append]
    unfold SocketAddr.toText
    rw [String.data_append, String.data_append, List.append_assoc]
    rfl
  rw [Url.parse_of_data _ _ hdata]
  rw [takeWhile_append_stop hostChar _ _ ':'
    (fun x hx => (hostChar_of_digit_or_dot x (ipText_chars sa.ip x hx)).1) (by decide)]
  have hne : ((IpV4.toText sa.ip).data).isEmpty = false := by
    cases hx : (IpV4.toText sa.ip).data with
    | nil => exact absurd hx (ipText_ne_nil sa.ip)
    | cons a l => rfl
  have hany : ((IpV4.toText sa.ip).data).any (fun c => c == ' ') = false := by
    rw [List.any_eq_false]
    intro x hx
    simp [(hostChar_of_digit_or_dot x (ipText_chars sa.ip x hx)).2]
  rw [hne, hany]
  rfl

/-! ### Helper lemmas: the two retry loops -/

lemma bindLoopAux_isSome (cfg : MockServerConfig) (env : StartEnv) :
    ∀ fuel counter, counter ≤ cfg.bind_max_retries →
      cfg.bind_max_retries + 1 ≤ counter + fuel →
      (bindLoopAux cfg env counter fuel).isSome = true := by
  intro fuel
  induction fuel with
  | zero => intro counter h1 h2; omega
  | succ fuel ih =>
    intro counter h1 h2
    unfold bindLoopAux
    by_cases hre : cfg.port_range_end ≤ cfg.port_range_start
    · rw [if_pos hre]; rfl
    · rw [if_neg hre]
      by_cases hb : env.bindOk counter = true
      · rw [if_pos hb]; rfl
      · rw [if_neg hb]
        by_cases hc : counter = cfg.bind_max_retries
        · rw [if_pos hc]; rfl
        · rw [if_neg hc]
          have hrec := ih (counter + 1) (by omega) (by omega)
          cases hx : bindLoopAux cfg env (counter + 1) fuel with
          | none => rw [hx] at hrec; simp at hrec
          | some pr =>
            obtain ⟨out, k⟩ := pr
            rfl

lemma readyLoopAux_isSome (cfg : MockServerConfig) (env : StartEnv) :
    ∀ fuel counter, counter ≤ cfg.ready_connect_max_retries →
      cfg.ready_connect_max_retries + 1 ≤ counter + fuel →
      (readyLoopAux cfg env counter fuel).isSome = true := by
  intro fuel
  induction fuel with
  | zero => intro counter h1 h2; omega
  | succ fuel ih =>
    intro counter h1 h2
    unfold readyLoopAux
    by_cases hp : env.probeOk counter = true
    · rw [if_pos hp]; rfl
    · rw [if_neg hp]
      by_cases hc : counter = cfg.ready_connect_max_retries
      · rw [if_pos hc]; rfl
      · rw [if_neg hc]
        exact ih (counter + 1) (by omega) (by omega)

lemma bindLoop_isSome (cfg : MockServerConfig) (env : StartEnv) :
    (bindLoop cfg env).isSome = true :=
  bindLoopAux_isSome cfg env (cfg.bind_max_retries + 1) 0 (Nat.zero_le _) (by omega)

lemma readyLoop_isSome (cfg : MockServerConfig) (env : StartEnv) :
    (readyLoop cfg env).isSome = true :=
  readyLoopAux_isSome cfg env (cfg.ready_connect_max_retries + 1) 0 (Nat.zero_le _) (by omega)

lemma bindLoopAux_not_panic (cfg : MockServerConfig) (env : StartEnv)
    (hr : cfg.port_range_start < cfg.port_range_end) :
    ∀ fuel counter out k, bindLoopAux cfg env counter fuel = some (out, k) →
      out ≠ .panic := by
  intro fuel
  induction fuel with
  | zero => intro counter out k h; simp [bindLoopAux] at h
  | succ fuel ih =>
    intro counter out k h
    unfold bindLoopAux at h
    rw [if_neg (by omega)] at h
    by_cases hb : env.bindOk counter = true
    · rw [if_pos hb] at h
      simp at h
      rw [← h.1]
      simp
    · rw [if_neg hb] at h
      by_cases hc : counter = cfg.bind_max_retries
      · rw [if_pos hc] at h
        simp at h
        rw [← h.1]
        simp
      · rw [if_neg hc] at h
        cases hx : bindLoopAux cfg env (counter + 1) fuel with
        | none => rw [hx] at h; cases h
        | some pr =>
          obtain ⟨out2, k2⟩ := pr
          rw [hx] at h
          simp at h
          rw [← h.1]
          exact ih (counter + 1) out2 k2 hx

lemma bindLoopAux_count_le (cfg : MockServerConfig) (env : StartEnv) :
    ∀ fuel counter out k, bindLoopAux cfg env counter fuel = some (out, k) →
      k ≤ fuel := by
  intro fuel
  induction fuel with
  | zero => intro counter out k h; simp [bindLoopAux] at h
  | succ fuel ih =>
    intro counter out k h
    unfold bindLoopAux at h
    by_cases hre : cfg.port_range_end ≤ cfg.port_range_start
    · rw [if_pos hre] at h
      simp at h
      obtain ⟨_, h2⟩ := h
      omega
    · rw [if_neg hre] at h
      by_cases hb : env.bindOk counter = true
      · rw [if_pos hb] at h
        simp at h
        obtain ⟨_, h2⟩ := h
        omega
      · rw [if_neg hb] at h
        by_cases hc : counter = cfg.bind_max_retries
        · rw [if_pos hc] at h
          simp at h
          obtain ⟨_, h2⟩ := h
          omega
        · rw [if_neg hc] at h
          cases hx : bindLoopAux cfg env (counter + 1) fuel with
          | none => rw [hx] at h; cases h
          | some pr =>
            obtain ⟨out2, k2⟩ := pr
            rw [hx] at h
            simp at h
            obtain ⟨_, h2⟩ := h
            have := ih (counter + 1) out2 k2 hx
            omega

lemma bindLoopAux_first_success (cfg : MockServerConfig) (env : StartEnv)
    (hr : cfg.port_range_start < cfg.port_range_end) :
    ∀ fuel counter k, counter ≤ k → k ≤ cfg.bind_max_retries →
      (∀ j, counter ≤ j → j < k → env.bindOk j = false) →
      env.bindOk k = true →
      k + 1 ≤ counter + fuel →
      bindLoopAux cfg env counter fuel =
        some (.ok ⟨⟨cfg.listen_addr, drawPort cfg (env.rand k)⟩⟩, k + 1 - counter) := by
  intro fuel
  induction fuel with
  | zero => intro counter k h1 h2 h3 h4 h5; omega
  | succ fuel ih =>
    intro counter k h1 h2 h3 h4 h5
    unfold bindLoopAux
    rw [if_neg (by omega)]
    by_cases hck : counter = k
    · subst hck
      rw [if_pos h4]
      have hk1 : counter + 1 - counter = 1 := by omega
      rw [hk1]
    · have hbc : env.bindOk counter = false := h3 counter (Nat.le_refl _) (by omega)
      rw [if_neg (by simp [hbc])]
      rw [if_neg (by omega : ¬ counter = cfg.bind_max_retries)]
      have hk2 : k + 1 - (counter + 1) + 1 = k + 1 - counter := by omega
      simp only [ih (counter + 1) k (by omega) h2
        (fun j hj1 hj2 => h3 j (by omega) hj2) h4 (by omega), hk2]

lemma bindLoopAux_all_fail (cfg : MockServerConfig) (env : StartEnv)
    (hr : cfg.port_range_start < cfg.port_range_end)
    (hall : ∀ j, j ≤ cfg.bind_max_retries → env.bindOk j = false) :
    ∀ fuel counter, counter ≤ cfg.bind_max_retries →
      cfg.bind_max_retries + 1 ≤ counter + fuel →
      bindLoopAux cfg env counter fuel =
        some (.fail, cfg.bind_max_retries + 1 - counter) := by
  intro fuel
  induction fuel with
  | zero => intro counter h1 h2; omega
  | succ fuel ih =>
    intro counter h1 h2
    unfold bindLoopAux
    rw [if_neg (by omega)]
    have hbc : env.bindOk counter = false := hall counter h1
    rw [if_neg (by simp [hbc])]
    by_cases hc : counter = cfg.bind_max_retries
    · rw [if_pos hc]
      have : cfg.bind_max_retries + 1 - counter = 1 := by omega
      rw [this]
    · rw [if_neg hc]
      have hstep : cfg.bind_max_retries + 1 - (counter + 1) + 1 =
          cfg.bind_max_retries + 1 - counter := by omega
      simp only [ih (counter + 1) (by omega) (by omega), hstep]

/-! ### Helper lemmas: start -/

lemma start_isSome (s : MockServer) (env : StartEnv)
    (hr : s.config.port_range_start < s.config.port_range_end) :
    (s.start env).isSome = true := by
  unfold MockServer.start
  by_cases ha : (s.addrOpt).isSome = true
  · rw [if_pos ha]; rfl
  · rw [if_neg ha]
    have hbs := bindLoop_isSome s.config env
    cases hb : bindLoop s.config env with
    | none => rw [hb] at hbs; simp at hbs
    | some pr =>
      obtain ⟨out, k⟩ := pr
      cases out with
      | panic => exact absurd rfl (bindLoopAux_not_panic s.config env hr _ 0 _ k hb)
      | fail => rfl
      | ok listener =>
        have hrs := readyLoop_isSome s.config env
        cases hready : readyLoop s.config env with
        | none => rw [hready] at hrs; simp at hrs
        | some rout =>
          cases rout with
          | fail => simp [Url.parse_socket listener.localAddr, hready]
          | ok => simp [Url.parse_socket listener.localAddr, hready]

lemma start_cases (s : MockServer) (env : StartEnv) (res : Except Err Unit)
    (s2 : MockServer) (h : s.start env = some (res, s2)) :
    (res = .error (.serverError "already running") ∧ s2 = s ∧ s.addr.isSome = true) ∨
    (res = .error (.serverError "server failed to bind to port") ∧ s2 = s ∧ s.addr = none) ∨
    (res = .error (.serverError "server failed to become ready") ∧ s2 = s ∧ s.addr = none) ∨
    (res = .ok () ∧ s.addr = none ∧
      ∃ a u, s2 = { s with addr := some a, base_url := some u }) := by
  unfold MockServer.start at h
  by_cases ha : (s.addrOpt).isSome = true
  · rw [if_pos ha] at h
    simp at h
    obtain ⟨h1, h2⟩ := h
    exact Or.inl ⟨h1.symm, h2.symm, ha⟩
  · rw [if_neg ha] at h
    have hanone : s.addr = none := by
      cases hx : s.addr with
      | none => rfl
      | some a => exact absurd (by unfold MockServer.addrOpt; rw [hx]; rfl) ha
    cases hb : bindLoop s.config env with
    | none => rw [hb] at h; cases h
    | some pr =>
      obtain ⟨out, k⟩ := pr
      cases out with
      | panic => rw [hb] at h; cases h
      | fail =>
        rw [hb] at h
        simp at h
        obtain ⟨h1, h2⟩ := h
        exact Or.inr (Or.inl ⟨h1.symm, h2.symm, hanone⟩)
      | ok listener =>
        rw [hb] at h
        simp only [Url.parse_socket listener.localAddr] at h
        cases hready : readyLoop s.config env with
        | none => rw [hready] at h; cases h
        | some rout =>
          cases rout with
          | fail =>
            rw [hready] at h
            simp at h
            obtain ⟨h1, h2⟩ := h
            exact Or.inr (Or.inr (Or.inl ⟨h1.symm, h2.symm, hanone⟩))
          | ok =>
            rw [hready] at h
            simp at h
            obtain ⟨h1, h2⟩ := h
            exact Or.inr (Or.inr (Or.inr ⟨h1.symm, hanone,
              listener.localAddr, ⟨"http://" ++ listener.localAddr.toText⟩, h2.symm⟩))

lemma runStarts_preserves_addr (envs : List StartEnv) :
    ∀ (s : MockServer) (a : SocketAddr), s.addr = some a →
      (runStarts s envs).addr = some a ∧
      (runStarts s envs).base_url = s.base_url := by
  induction envs with
  | nil => intro s a h; exact ⟨h, rfl⟩
  | cons e es ih =>
    intro s a h
    unfold runStarts
    cases hst : s.start e with
    | none => exact ⟨h, rfl⟩
    | some pr =>
      obtain ⟨res, s2⟩ := pr
      rcases start_cases s e res s2 hst with
        ⟨_, h2, _⟩ | ⟨_, h2, _⟩ | ⟨_, h2, _⟩ | ⟨_, hnone, _, _, _⟩
      · rw [h2]; exact ih s a h
      · rw [h2]; exact ih s a h
      · rw [h2]; exact ih s a h
      · rw [h] at hnone; cases hnone

/-- C1: the bound address and base URL have single-assignment semantics — a
fresh server reports none of addr/port/hostname/base-URL and is not running;
a start call leaves the state untouched unless it returns Ok, in which case
the address and base URL become (and stay) set, starting from unset; across
any further sequence of start calls a published address never changes and the
base URL is never reassigned; and `is_running` is true exactly when the
address has been published. -/
theorem address_single_assignment :
    (∀ name, (MockServer.new name).addrOpt = none ∧ (MockServer.new name).port = none ∧
      (MockServer.new name).hostname = none ∧ (MockServer.new name).baseUrlOpt = none ∧
      (MockServer.new name).is_running = false) ∧
    (∀ s : MockServer, s.is_running = s.addrOpt.isSome ∧
      s.port = s.addrOpt.map (fun a => a.port) ∧
      s.hostname = s.addrOpt.map (fun a => a.ip.toText)) ∧
    (∀ s env res s2, MockServer.start s env = some (res, s2) →
      (res ≠ .ok () → s2 = s) ∧
      (res = .ok () → s.addrOpt = none ∧ s2.addrOpt.isSome = true ∧
        s2.baseUrlOpt.isSome = true)) ∧
    (∀ s envs a, s.addrOpt = some a →
      (runStarts s envs).addrOpt = some a ∧
      (runStarts s envs).baseUrlOpt = s.baseUrlOpt) := by
  refine ⟨?_, ?_, ?_, ?_⟩
  · intro name; exact ⟨rfl, rfl, rfl, rfl, rfl⟩
  · intro s; exact ⟨rfl, rfl, rfl⟩
  · intro s env res s2 h
    constructor
    · intro hne
      rcases start_cases s env res s2 h with
        ⟨_, h2, _⟩ | ⟨_, h2, _⟩ | ⟨_, h2, _⟩ | ⟨h1, _, _⟩
      · exact h2
      · exact h2
      · exact h2
      · exact absurd h1 hne
    · intro hok
      rcases start_cases s env res s2 h with
        ⟨h1, _, _⟩ | ⟨h1, _, _⟩ | ⟨h1, _, _⟩ | ⟨_, hnone, a, u, hs2⟩
      · simp [hok] at h1
      · simp [hok] at h1
      · simp [hok] at h1
      · exact ⟨hnone, by rw [hs2]; rfl, by rw [hs2]; rfl⟩
  · intro s envs a h
    exact runStarts_preserves_addr envs s a h

/-- C1 witness: a server whose address cell holds `0.0.0.0:10000` keeps that
address and its base URL across two further start calls. -/
theorem address_single_assignment_witness :
    ({ MockServer.new "w1" with
        addr := some ⟨⟨0, 0, 0, 0⟩, 10000⟩
        base_url := some ⟨"http://0.0.0.0:10000"⟩ } : MockServer).addrOpt =
      some ⟨⟨0, 0, 0, 0⟩, 10000⟩ ∧
    (runStarts { MockServer.new "w1" with
        addr := some ⟨⟨0, 0, 0, 0⟩, 10000⟩
        base_url := some ⟨"http://0.0.0.0:10000"⟩ } [envFirstTry, envBindAllFail]).addrOpt =
      some ⟨⟨0, 0, 0, 0⟩, 10000⟩ ∧
    (runStarts { MockServer.new "w1" with
        addr := some ⟨⟨0, 0, 0, 0⟩, 10000⟩
        base_url := some ⟨"http://0.0.0.0:10000"⟩ } [envFirstTry, envBindAllFail]).baseUrlOpt =
      ({ MockServer.new "w1" with
        addr := some ⟨⟨0, 0, 0, 0⟩, 10000⟩
        base_url := some ⟨"http://0.0.0.0:10000"⟩ } : MockServer).baseUrlOpt :=
  ⟨rfl,
    (address_single_assignment.2.2.2
      { MockServer.new "w1" with
        addr := some ⟨⟨0, 0, 0, 0⟩, 10000⟩
        base_url := some ⟨"http://0.0.0.0:10000"⟩ } [envFirstTry, envBindAllFail]
      ⟨⟨0, 0, 0, 0⟩, 10000⟩ rfl).1,
    (address_single_assignment.2.2.2
      { MockServer.new "w1" with
        addr := some ⟨⟨0, 0, 0, 0⟩, 10000⟩
        base_url := some ⟨"http://0.0.0.0:10000"⟩ } [envFirstTry, envBindAllFail]
      ⟨⟨0, 0, 0, 0⟩, 10000⟩ rfl).2⟩

/-- C2: calling `start` on a server whose address is already published
returns the already-running error with the state unchanged (no side
effects). -/
theorem start_when_running_no_side_effects (s : MockServer) (env : StartEnv)
    (h : s.is_running = true) :
    s.start env = some (.error (.serverError "already running"), s) := by
  unfold MockServer.start
  have h2 : (s.addrOpt).isSome = true := h
  rw [if_pos h2]

/-- C2 witness: a running server at `0.0.0.0:10000` rejects a second start
and is returned unchanged. -/
theorem start_when_running_no_side_effects_witness :
    ({ MockServer.new "w2" with addr := some ⟨⟨0, 0, 0, 0⟩, 10000⟩ } : MockServer).is_running
      = true ∧
    ({ MockServer.new "w2" with addr := some ⟨⟨0, 0, 0, 0⟩, 10000⟩ } : MockServer).start
        envFirstTry =
      some (.error (.serverError "already running"),
        { MockServer.new "w2" with addr := some ⟨⟨0, 0, 0, 0⟩, 10000⟩ }) :=
  ⟨rfl, start_when_running_no_side_effects
    { MockServer.new "w2" with addr := some ⟨⟨0, 0, 0, 0⟩, 10000⟩ } envFirstTry rfl⟩

/-- C3: for a non-degenerate configured port range, `start` always returns —
with Ok or with one of exactly three typed errors (already-running,
bind-exhausted, not-ready) — and on a bind-exhausted or not-ready failure
the state is unchanged: the address stays unset, the base URL cell is
untouched, and the server is not running, so `start` may be retried. -/
theorem start_failure_modes (s : MockServer) (env : StartEnv)
    (hr : s.config.port_range_start < s.config.port_range_end) :
    ∃ res s2, s.start env = some (res, s2) ∧
      (res = .ok () ∨
        res = .error (.serverError "already running") ∨
        res = .error (.serverError "server failed to bind to port") ∨
        res = .error (.serverError "server failed to become ready")) ∧
      ((res = .error (.serverError "server failed to bind to port") ∨
        res = .error (.serverError "server failed to become ready")) →
        s2 = s ∧ s2.addrOpt = none ∧ s2.is_running = false ∧
        s2.baseUrlOpt = s.baseUrlOpt) := by
  have hs := start_isSome s env hr
  cases hst : s.start env with
  | none => rw [hst] at hs; simp at hs
  | some pr =>
    obtain ⟨res, s2⟩ := pr
    refine ⟨res, s2, rfl, ?_, ?_⟩
    · rcases start_cases s env res s2 hst with
        ⟨h1, _, _⟩ | ⟨h1, _, _⟩ | ⟨h1, _, _⟩ | ⟨h1, _, _⟩
      · exact Or.inr (Or.inl h1)
      · exact Or.inr (Or.inr (Or.inl h1))
      · exact Or.inr (Or.inr (Or.inr h1))
      · exact Or.inl h1
    · intro herr
      rcases start_cases s env res s2 hst with
        ⟨h1, _, _⟩ | ⟨h1, h2, h3⟩ | ⟨h1, h2, h3⟩ | ⟨h1, _, _⟩
      · rcases herr with he | he <;> (rw [h1] at he; simp at he)
      · subst h2
        refine ⟨rfl, h3, ?_, rfl⟩
        simp [MockServer.is_running, h3]
      · subst h2
        refine ⟨rfl, h3, ?_, rfl⟩
        simp [MockServer.is_running, h3]
      · rcases herr with he | he <;> (rw [h1] at he; simp at he)

/-- C3 witness: a fresh default-configured server with every bind failing
returns one of the typed outcomes (here: bind-exhausted) and stays
non-running. -/
theorem start_failure_modes_witness :
    (MockServer.new "w3").config.port_range_start <
      (MockServer.new "w3").config.port_range_end ∧
    (∃ res s2, (MockServer.new "w3").start envBindAllFail = some (res, s2) ∧
      (res = .ok () ∨
        res = .error (.serverError "already running") ∨
        res = .error (.serverError "server failed to bind to port") ∨
        res = .error (.serverError "server failed to become ready")) ∧
      ((res = .error (.serverError "server failed to bind to port") ∨
        res = .error (.serverError "server failed to become ready")) →
        s2 = MockServer.new "w3" ∧ s2.addrOpt = none ∧ s2.is_running = false ∧
        s2.baseUrlOpt = (MockServer.new "w3").baseUrlOpt)) :=
  ⟨by decide, start_failure_modes (MockServer.new "w3") envBindAllFail (by decide)⟩

/-- C7 counterexample: with the default configuration
(`bind_max_retries = 10`) and every bind failing, `start`'s bind loop
performs 11 bind attempts — exceeding the configured value 10 — before
returning the bind-exhausted error. -/
theorem bind_attempts_exceed_configured_max :
    MockServer.start (MockServer.new "t") envBindAllFail =
      some (.error (.serverError "server failed to bind to port"), MockServer.new "t") ∧
    bindLoop MockServerConfig.default envBindAllFail = some (.fail, 11) ∧
    MockServerConfig.default.bind_max_retries = 10 ∧ ¬(11 ≤ 10) :=
  ⟨rfl, rfl, rfl, by decide⟩

/-- C7 (amended): for a nonempty configured range, every candidate port the
bind loop draws lies in the half-open configured range; the loop performs at
most `bind_max_retries + 1` bind attempts (default 11: one initial attempt
plus up to 10 retries) before returning the fatal bind-exhausted error; and
it returns as soon as one bind succeeds — a first success at attempt index k
ends the loop with the listener bound to the k-th drawn port after exactly
k + 1 attempts. -/
theorem bind_loop_bounds (cfg : MockServerConfig) (env : StartEnv)
    (hr : cfg.port_range_start < cfg.port_range_end) :
    (∀ i, cfg.port_range_start ≤ drawPort cfg (env.rand i) ∧
      drawPort cfg (env.rand i) < cfg.port_range_end) ∧
    (∀ out k, bindLoop cfg env = some (out, k) → k ≤ cfg.bind_max_retries + 1) ∧
    (∀ k, k ≤ cfg.bind_max_retries → (∀ j, j < k → env.bindOk j = false) →
      env.bindOk k = true →
      bindLoop cfg env =
        some (.ok ⟨⟨cfg.listen_addr, drawPort cfg (env.rand k)⟩⟩, k + 1)) ∧
    ((∀ j, j ≤ cfg.bind_max_retries → env.bindOk j = false) →
      bindLoop cfg env = some (.fail, cfg.bind_max_retries + 1)) := by
  refine ⟨?_, ?_, ?_, ?_⟩
  · intro i
    unfold drawPort
    have hm : env.rand i % (cfg.port_range_end - cfg.port_range_start) <
        cfg.port_range_end - cfg.port_range_start :=
      Nat.mod_lt _ (by omega)
    omega
  · intro out k h
    exact bindLoopAux_count_le cfg env (cfg.bind_max_retries + 1) 0 out k h
  · intro k h1 h2 h3
    have := bindLoopAux_first_success cfg env hr (cfg.bind_max_retries + 1) 0 k
      (Nat.zero_le k) h1 (fun j hj1 hj2 => h2 j hj2) h3 (by omega)
    simpa using this
  · intro hall
    have := bindLoopAux_all_fail cfg env hr hall (cfg.bind_max_retries + 1) 0
      (Nat.zero_le _) (by omega)
    simpa using this

/-- C7 (amended) witness: with the default configuration and a first-try
environment, the drawn port is in range and the loop binds on attempt 1. -/
theorem bind_loop_bounds_witness :
    MockServerConfig.default.port_range_start <
      MockServerConfig.default.port_range_end ∧
    bindLoop MockServerConfig.default envFirstTry =
      some (.ok ⟨⟨MockServerConfig.default.listen_addr,
        drawPort MockServerConfig.default (envFirstTry.rand 0)⟩⟩, 0 + 1) :=
  ⟨by decide, (bind_loop_bounds MockServerConfig.default envFirstTry (by decide)).2.2.1 0
    (by decide) (fun j hj => absurd hj (Nat.not_lt_zero j)) rfl⟩

/-- C8: both retry loops of `start` are bounded by their explicit attempt
counters: entered at counter 0 with fuel covering the whole retry budget,
each loop always yields a result (success or the typed error), and `start`
itself always returns for every environment — including ones where every
bind or every probe fails — provided the configured port range is nonempty
(an empty range makes the Rust RNG panic rather than loop). -/
theorem retry_loops_bounded_terminate (s : MockServer) (env : StartEnv)
    (hr : s.config.port_range_start < s.config.port_range_end) :
    (∀ fuel, s.config.bind_max_retries + 1 ≤ fuel →
      (bindLoopAux s.config env 0 fuel).isSome = true) ∧
    (∀ fuel, s.config.ready_connect_max_retries + 1 ≤ fuel →
      (readyLoopAux s.config env 0 fuel).isSome = true) ∧
    (bindLoop s.config env).isSome = true ∧
    (readyLoop s.config env).isSome = true ∧
    (s.start env).isSome = true :=
  ⟨fun fuel hf => bindLoopAux_isSome s.config env fuel 0 (Nat.zero_le _) (by omega),
    fun fuel hf => readyLoopAux_isSome s.config env fuel 0 (Nat.zero_le _) (by omega),
    bindLoop_isSome s.config env,
    readyLoop_isSome s.config env,
    start_isSome s env hr⟩

/-- C8 witness: a fresh default-configured server terminates with a result
even when every bind attempt fails. -/
theorem retry_loops_bounded_terminate_witness :
    (MockServer.new "w8").config.port_range_start <
      (MockServer.new "w8").config.port_range_end ∧
    ((MockServer.new "w8").start envBindAllFail).isSome = true :=
  ⟨by decide,
    (retry_loops_bounded_terminate (MockServer.new "w8") envBindAllFail (by decide)).2.2.2.2⟩

end Mocktail
